import Mathlib

/-!
Shallow embedding of the core of the `ai-pdf-editor` repository
(`src/pdf_editor.py` and `src/llm_client.py`) and proofs about it.

Conventions of the embedding:
* Python strings are Lean `String`s; all string operations used by the code
  (`lower`, `strip`, `split`, `in`, `startswith`, `endswith`, `replace`)
  are re-implemented below on `List Char` so that they compute by kernel
  reduction and mirror Python semantics (ASCII case mapping).
* Python floats (`font_size`, thresholds such as `1.2` and `0.6`) are
  modelled as exact rationals `ℚ`; the comparisons the claims depend on are
  far from floating-point rounding boundaries.
* PyMuPDF's `page.get_text("dict")` result is modelled as a list of page
  blocks, each either carrying lines of spans or not (image blocks).
-/

/-- Python `str.split()` with no separator: split on runs of whitespace,
dropping empty pieces. Auxiliary worker over the character list; `cur` is
the reversed current word. -/
def pySplitAux (cur : List Char) : List Char → List String
  | [] => if cur.isEmpty then [] else [String.mk cur.reverse]
  | c :: rest =>
    if c.isWhitespace then
      if cur.isEmpty then pySplitAux [] rest
      else String.mk cur.reverse :: pySplitAux [] rest
    else pySplitAux (c :: cur) rest

/-- Python `str.split()` with no argument. -/
def pySplit (s : String) : List String := pySplitAux [] s.toList

/-- Python `str.lower()` (ASCII case mapping). -/
def pyLower (s : String) : String := String.mk (s.toList.map Char.toLower)

/-- Python `str.strip()` with no argument: drop whitespace at both ends. -/
def pyStrip (s : String) : String :=
  String.mk (((s.toList.dropWhile Char.isWhitespace).reverse.dropWhile
      Char.isWhitespace).reverse)

/-- Worker for the Python substring test: does `needle` occur as a
contiguous run inside `hay`? (The empty needle occurs in everything,
matching Python `"" in s`.) -/
def isSubstrList (needle : List Char) : List Char → Bool
  | [] => needle.isEmpty
  | c :: rest => needle.isPrefixOf (c :: rest) || isSubstrList needle rest

/-- Python substring test `needle in hay` on strings. -/
def isSubstr (needle hay : String) : Bool := isSubstrList needle.toList hay.toList

/-- Python `s.startswith(p)`. -/
def pyStartsWith (s p : String) : Bool := p.toList.isPrefixOf s.toList

/-- Python `s.endswith(p)`. -/
def pyEndsWith (s p : String) : Bool := p.toList.isSuffixOf s.toList

/-- Python `s[n:]` (drop the first `n` characters). -/
def pyDrop (s : String) (n : Nat) : String := String.mk (s.toList.drop n)

/-- Python `s[:n]` for `n ≥ 0` (take the first `n` characters). -/
def pyTake (s : String) (n : Nat) : String := String.mk (s.toList.take n)

/-- Python truthiness of an `Optional[str]`: `None` and `""` are falsy. -/
def ctxTruthy : Option String → Bool
  | none => false
  | some s => decide (s ≠ "")

/-- The string held by an optional context (empty when absent); only ever
used under a `ctxTruthy` guard, mirroring `context.lower().split()` being
evaluated only when `context` is truthy. -/
def ctxStr : Option String → String
  | none => ""
  | some s => s

/-- Python `w[0].isupper()` on a word produced by `split` (words are
nonempty, but the code also guards with `if w`). -/
def firstIsUpper (w : String) : Bool :=
  match w.toList with
  | [] => false
  | c :: _ => c.isUpper

/-- Python `str.isupper()`: at least one cased character and no lowercase
cased character (ASCII). -/
def pyIsUpper (s : String) : Bool :=
  s.toList.any (fun c => c.isAlpha) && s.toList.all (fun c => !c.isLower)

/-- Python `any(c in text for c in cs)`. -/
def containsAnyChar (text : String) (cs : List Char) : Bool :=
  cs.any (fun c => text.toList.contains c)

/-- Number of words of `words` whose first character is uppercase, i.e.
Python `sum(1 for w in words if w and w[0].isupper())`. -/
def capCount (words : List String) : Nat :=
  (words.filter firstIsUpper).length

/-- Cardinality of `set(a) ∩ set(b)` for Python lists of strings. -/
def setInterCard (a b : List String) : Nat :=
  (a.dedup.filter (fun w => b.contains w)).length

/-- Addition on `ℚ` through the raw fraction representation. It is equal
to `+` (theorem `qAdd_eq`); it is spelled this way because the library's
sealed `Rat.add` does not evaluate inside `decide`, while `mkRat` does. -/
def qAdd (a b : ℚ) : ℚ := mkRat (a.num * b.den + b.num * a.den) (a.den * b.den)

/-- Multiplication on `ℚ` through the raw fraction representation; equal
to `*` (theorem `qMul_eq`). -/
def qMul (a b : ℚ) : ℚ := mkRat (a.num * b.num) (a.den * b.den)

/-- Division of a rational by a natural number; equal to `a / n`
(theorem `qDivNat_eq`), including the `n = 0` convention `a / 0 = 0`. -/
def qDivNat (a : ℚ) (n : Nat) : ℚ := mkRat a.num (a.den * n)

/-- Python `sum` over a list of rationals: a left fold of addition
starting from `0`. -/
def qSum (l : List ℚ) : ℚ := l.foldl qAdd 0

theorem qAdd_eq (a b : ℚ) : qAdd a b = a + b := (Rat.add_def' a b).symm

theorem qMul_eq (a b : ℚ) : qMul a b = a * b := by
  unfold qMul
  rw [Rat.mul_def, Rat.normalize_eq_mkRat]

theorem qDivNat_eq (a : ℚ) (n : Nat) : qDivNat a n = a / n := by
  unfold qDivNat
  rw [Rat.mkRat_eq_div]
  push_cast
  rw [div_mul_eq_div_div, Rat.num_div_den]

/-- The capitalized-word fraction Python computes as
`sum(1 for w in words if w and w[0].isupper()) / max(1, len(words))`. -/
def capFrac (words : List String) : ℚ :=
  qDivNat (capCount words : ℚ) (max 1 words.length)

/-- Heading classifier `TextBlock._is_heading` from `src/pdf_editor.py`
(lines 28-58): a pure function of the block's text. -/
def isHeadingText (rawText : String) : Bool :=
  let text := pyStrip rawText
  if text = "" then false
  else
    let words := pySplit text
    let wordCount := words.length
    if wordCount ≤ 7 && decide (capFrac words > mkRat 1 2) then
      true
    else if pyEndsWith text ":" && decide (wordCount < 10) then
      true
    else if pyIsUpper text && decide (wordCount < 5) then
      true
    else if decide (wordCount < 12) &&
        !containsAnyChar text [',', ';', ':', '(', ')', '"', '\''] then
      true
    else
      false

/-- The `TextBlock` record from `src/pdf_editor.py` (lines 14-26).
`bbox` is `(x0, y0, x1, y1)`. -/
structure TextBlock where
  text : String
  bbox : ℚ × ℚ × ℚ × ℚ
  pageNum : Nat
  fontSize : ℚ
  fontName : Option String
  isHeading : Bool
deriving DecidableEq, Repr

/-- The `TextBlock` constructor: `is_heading` is derived from the text by
`_is_heading` at construction time. -/
def mkTextBlock (text : String) (bbox : ℚ × ℚ × ℚ × ℚ) (pageNum : Nat)
    (fontSize : ℚ) (fontName : Option String) : TextBlock :=
  { text := text, bbox := bbox, pageNum := pageNum, fontSize := fontSize,
    fontName := fontName, isHeading := isHeadingText text }

/-- One text span of the document model (PyMuPDF span dict): `text`,
`bbox`, `size`, `font`. -/
structure Span where
  text : String
  bbox : ℚ × ℚ × ℚ × ℚ
  size : ℚ
  font : String
deriving DecidableEq, Repr

/-- One line of a structural block: a list of spans. -/
structure Line where
  spans : List Span
deriving DecidableEq, Repr

/-- One entry of the page dictionary's `"blocks"` list: either a text
block carrying a `"lines"` key, or a block without lines (e.g. an image
block), which the extraction loops skip. -/
inductive PageBlock where
  | withLines (lines : List Line)
  | withoutLines
deriving DecidableEq, Repr

/-- All spans of a page-block list, in the order the nested
`for block / for line / for span` loops visit them. -/
def pageSpans (pblocks : List PageBlock) : List Span :=
  pblocks.flatMap fun pb =>
    match pb with
    | .withLines lines => lines.flatMap (fun l => l.spans)
    | .withoutLines => []

/-- Spans of a single structural block (empty for a block without lines). -/
def blockSpans : PageBlock → List Span
  | .withLines lines => lines.flatMap (fun l => l.spans)
  | .withoutLines => []

/-- The method `PDFEditor._calculate_average_font_size` (`src/pdf_editor.py`,
lines 106-115): the mean of the sizes of ALL spans reachable from the
given block dictionary, with default `12` when there are none. The code
passes the whole page dictionary here. -/
def calculateAverageFontSize (pblocks : List PageBlock) : ℚ :=
  let fontSizes := (pageSpans pblocks).map (fun s => s.size)
  if fontSizes.isEmpty then 12
  else qDivNat (qSum fontSizes) fontSizes.length

/-- The font-size heading upgrade applied in `extract_text_blocks`
(lines 95-98): `if font_size > avg_font_size * 1.2: block.is_heading = True`.
This is the only mutation of `is_heading` after construction. -/
def fontSizeUpgrade (avgFontSize : ℚ) (tb : TextBlock) : TextBlock :=
  if tb.fontSize > qMul avgFontSize (mkRat 6 5) then { tb with isHeading := true }
  else tb

/-- Processing of one span inside the extraction loop of
`PDFEditor.extract_text_blocks` (lines 79-101): skip spans whose stripped
text is empty; otherwise build a `TextBlock`, apply the font-size upgrade
against `avgFontSize`, and append the block and the text. The code
recomputes `avg_font_size` from the page dictionary at every span; the
value is the same each time, so it is passed in once here. -/
def extractSpanStep (pageNum : Nat) (avgFontSize : ℚ)
    (acc : List TextBlock × String) (span : Span) :
    List TextBlock × String :=
  let text := pyStrip span.text
  if text = "" then acc
  else
    let tb0 := mkTextBlock text span.bbox pageNum span.size (some span.font)
    let tb := fontSizeUpgrade avgFontSize tb0
    (acc.1 ++ [tb], acc.2 ++ text ++ " ")

/-- Processing of the spans of one page inside
`PDFEditor.extract_text_blocks` (lines 72-101), with the upgrade
threshold taken from the whole page dictionary. -/
def extractPageStep (pageNum : Nat) (pblocks : List PageBlock)
    (acc : List TextBlock × String) : List TextBlock × String :=
  (pageSpans pblocks).foldl
    (extractSpanStep pageNum (calculateAverageFontSize pblocks)) acc

/-- The method `PDFEditor.extract_text_blocks` (`src/pdf_editor.py`, lines 66-104):
a document is a list of pages, each page the `"blocks"` list of its page
dictionary; returns the extracted blocks and the stripped full text. -/
def extractTextBlocks (doc : List (List PageBlock)) :
    List TextBlock × String :=
  let r := doc.enum.foldl
    (fun acc p => extractPageStep p.1 p.2 acc) ([], "")
  (r.1, pyStrip r.2)

/-- The method `PDFEditor._fuzzy_match` (`src/pdf_editor.py`, lines 386-418).
The `context` argument is optional in effect: the code tests its Python
truthiness at both use sites. -/
def fuzzyMatch (target text : String) (context : Option String) : Bool :=
  if isSubstr (pyLower target) (pyLower text) then true
  else
    let targetWords := (pySplit (pyLower target)).dedup
    let textWords := (pySplit (pyLower text)).dedup
    let contextWords :=
      if ctxTruthy context then (pySplit (pyLower (ctxStr context))).dedup
      else []
    let wordOverlap : ℚ :=
      if !targetWords.isEmpty then
        qDivNat (setInterCard targetWords textWords : ℚ) targetWords.length
      else 0
    let contextMatch : ℚ :=
      if !contextWords.isEmpty then
        qDivNat (setInterCard contextWords textWords : ℚ) contextWords.length
      else 0
    let headingLike :=
      decide ((pyStrip text).length < 100) &&
      (pyEndsWith (pyStrip text) ":" ||
        !containsAnyChar text [',', '.', ';']) &&
      decide (capFrac (pySplit text) > mkRat 1 2)
    if headingLike then
      decide (wordOverlap ≥ mkRat 3 10) || decide (contextMatch ≥ mkRat 3 10)
    else
      decide (wordOverlap ≥ mkRat 1 2) &&
        (decide (contextMatch ≥ mkRat 1 5) || !ctxTruthy context)

/-- Stage-1 condition of the matcher (`src/pdf_editor.py`, lines 356-362):
the lowercased target equals, or is a substring of, the lowercased block
text; the `if`/`elif` pair adds each block at most once. -/
def stage1Pred (target : String) (b : TextBlock) : Bool :=
  pyLower target == pyLower b.text || isSubstr (pyLower target) (pyLower b.text)

/-- Stage-3 condition of the matcher (`src/pdf_editor.py`, lines 375-381):
60% word overlap, `overlap >= len(words) * 0.6` with `words` the list of
the lowercased target's words and `overlap` the size of its set
intersection with the block's lowercased word set. -/
def stage3Pred (targetLower : String) (b : TextBlock) : Bool :=
  let words := pySplit targetLower
  let blockWords := pySplit (pyLower b.text)
  decide ((setInterCard words blockWords : ℚ) ≥
    qMul (words.length : ℚ) (mkRat 3 5))

/-- The method `PDFEditor._find_matching_text_blocks` (`src/pdf_editor.py`,
lines 346-384): exact/substring stage, then (if empty and a truthy
context was given) the context-fuzzy stage, then (if still empty) the
word-overlap stage. -/
def findMatchingTextBlocks (targetText : String) (textBlocks : List TextBlock)
    (context : Option String) : List TextBlock :=
  let targetTextLower := pyLower targetText
  let m1 := textBlocks.filter (fun b => stage1Pred targetText b)
  let m2 :=
    if m1.isEmpty && ctxTruthy context then
      textBlocks.filter (fun b => fuzzyMatch targetText b.text context)
    else m1
  if m2.isEmpty then textBlocks.filter (fun b => stage3Pred targetTextLower b)
  else m2

/-- The looser heading-like filter used by the second resolution stage of
`_apply_heading_modification` (`src/pdf_editor.py`, lines 267-274). -/
def looseHeadingPred (b : TextBlock) : Bool :=
  decide ((pySplit b.text).length < 15) &&
  decide (b.fontSize ≥ 11) &&
  !containsAnyChar b.text [',', ';', ':'] &&
  decide (capFrac (pySplit b.text) > mkRat 2 5)

/-- The `EditRequest` dataclass from `src/llm_client.py` (lines 18-24). -/
structure EditRequest where
  action : String
  targetText : String
  replacementText : Option String := none
  context : Option String := none
deriving DecidableEq, Repr

/-- Candidate resolution of `PDFEditor._apply_heading_modification`
(`src/pdf_editor.py`, lines 240-288), returning the blocks that will be
modified: matcher over `is_heading` blocks, then over the looser
heading-like subset, then over all blocks. The function is total: when
no stage matches it returns the empty list (the code logs a warning and
returns without touching the document and without raising). -/
def applyHeadingModification (req : EditRequest) (textBlocks : List TextBlock) :
    List TextBlock :=
  let targetText := pyStrip req.targetText
  let headingBlocks := textBlocks.filter (fun b => b.isHeading)
  let m1 := findMatchingTextBlocks targetText headingBlocks req.context
  let m2 :=
    if m1.isEmpty then
      findMatchingTextBlocks targetText (textBlocks.filter looseHeadingPred)
        req.context
    else m1
  if m2.isEmpty then findMatchingTextBlocks targetText textBlocks req.context
  else m2

/-- The fixed indicator list of `PDFEditor._seems_ai_generated`
(`src/pdf_editor.py`, lines 426-430). -/
def aiIndicators : List String :=
  ["demonstrates", "showcases", "furthermore", "moreover",
   "consequently", "thus", "therefore", "in addition",
   "operational efficiency", "high levels", "significant impact"]

/-- The indicator score of `_seems_ai_generated` (line 433): the number
of indicator phrases occurring as substrings of the lowercased text. -/
def aiScore (text : String) : Nat :=
  (aiIndicators.filter (fun ind => isSubstr ind (pyLower text))).length

/-- The method `PDFEditor._seems_ai_generated` (`src/pdf_editor.py`, lines 420-436). -/
def seemsAiGenerated (text : String) : Bool :=
  if text = "" then false
  else
    decide (aiScore text ≥ 2) ||
      (decide ((pySplit text).length > 10) && decide (aiScore text ≥ 1))

/-- One element of a decoded JSON array, as far as
`LLMClient._parse_edit_response` inspects it: either a dictionary whose
relevant values are strings, or something that fails the
`isinstance(item, dict)` check. -/
inductive JsonElem where
  | dict (fields : List (String × String))
  | nonDict
deriving DecidableEq, Repr

/-- The per-item conversion of `_parse_edit_response`
(`src/llm_client.py`, lines 126-133): keep dictionary items that carry
both an `action` and a `target_text` key. -/
def editRequestOfJson : JsonElem → Option EditRequest
  | .dict fields =>
    if (fields.lookup "action").isSome && (fields.lookup "target_text").isSome
    then
      some { action := (fields.lookup "action").getD "",
             targetText := (fields.lookup "target_text").getD "",
             replacementText := fields.lookup "replacement_text",
             context := fields.lookup "context" }
    else none
  | .nonDict => none

/-- The response cleaning of `_parse_edit_response` (`src/llm_client.py`,
lines 115-120): strip, drop a leading markdown fence marker followed by
the word json (7 characters), drop a trailing three-character fence
marker, strip again. -/
def cleanResponse (response : String) : String :=
  let c := pyStrip response
  let c := if pyStartsWith c "```json" then pyDrop c 7 else c
  let c := if pyEndsWith c "```" then pyTake c (c.length - 3) else c
  pyStrip c

/-- The method `LLMClient._parse_edit_response` (`src/llm_client.py`, lines 111-138).
The external JSON decoder (`json.loads` followed by iterating the decoded
value) is abstracted as a function `jsonParse` returning `none` exactly
when the Python `try` block raises; the rule-based parser is abstracted
as `ruleBased` because the claim about this function only concerns which
string it is handed. On any failure the code falls back to
`self._rule_based_parsing(response)` — the original, uncleaned response. -/
def parseEditResponse (jsonParse : String → Option (List JsonElem))
    (ruleBased : String → List EditRequest) (response : String) :
    List EditRequest :=
  let cleaned := cleanResponse response
  match jsonParse cleaned with
  | some editData => editData.filterMap editRequestOfJson
  | none => ruleBased response

/-- Worker for Python `str.replace` with a nonempty pattern: scan left to
right; at a match emit the replacement and continue after the matched
run (non-overlapping), otherwise emit one character. Recursion is on a
fuel argument; each step consumes at least one character of `l`, so fuel
`l.length` suffices and the zero-fuel branch is unreachable from the
wrapper. -/
def replaceAllFuel (pat repl : List Char) : Nat → List Char → List Char
  | 0, l => l
  | _ + 1, [] => []
  | fuel + 1, c :: rest =>
    if pat.isPrefixOf (c :: rest) then
      repl ++ replaceAllFuel pat repl fuel ((c :: rest).drop pat.length)
    else
      c :: replaceAllFuel pat repl fuel rest

/-- Python `s.replace(pat, repl)`: replace all non-overlapping
occurrences, leftmost first. An empty pattern matches at every position
(Python inserts the replacement around every character). -/
def pyReplace (s pat repl : String) : String :=
  match pat.toList with
  | [] => String.mk (repl.toList ++ s.toList.flatMap (fun c => c :: repl.toList))
  | p :: ps =>
    String.mk (replaceAllFuel (p :: ps) repl.toList s.toList.length s.toList)

/-- Worker for Python `s.replace(pat, repl, 1)`: replace only the first
occurrence. -/
def replaceFirstList (pat repl : List Char) : List Char → List Char
  | [] => if pat.isEmpty then repl else []
  | c :: rest =>
    if pat.isPrefixOf (c :: rest) then
      repl ++ (c :: rest).drop pat.length
    else
      c :: replaceFirstList pat repl rest

/-- Python `s.replace(pat, repl, 1)`. -/
def pyReplaceFirst (s pat repl : String) : String :=
  String.mk (replaceFirstList pat.toList repl.toList s.toList)

/-- The method `LLMClient._simple_humanize` (`src/llm_client.py`, lines 246-261):
five literal substring replacements, then a start-anchored first-occurrence
rewrite of a leading sentence opener. -/
def simpleHumanize (text : String) : String :=
  let text := pyReplace text "utilize" "use"
  let text := pyReplace text "demonstrate" "show"
  let text := pyReplace text "furthermore" "also"
  let text := pyReplace text "in addition" "plus"
  let text := pyReplace text "consequently" "so"
  if pyStartsWith text "The system" then
    pyReplaceFirst text "The system" "This system"
  else if pyStartsWith text "This approach" then
    pyReplaceFirst text "This approach" "Our approach"
  else text

/-- Per-span extraction outcome, parameterized by the average font size
the upgrade pass compares against: a span whose stripped text is empty is
dropped; otherwise it yields a `TextBlock` whose `is_heading` is the text
rule OR the font-size comparison `size > avg * 1.2`. -/
def specExtractSpan (pageNum : Nat) (avgFontSize : ℚ) (span : Span) :
    Option TextBlock :=
  let text := pyStrip span.text
  if text = "" then none
  else some { text := text, bbox := span.bbox, pageNum := pageNum,
              fontSize := span.size, fontName := some span.font,
              isHeading := isHeadingText text ||
                decide (span.size > qMul avgFontSize (mkRat 6 5)) }

/-- Average font size over the spans of ONE structural block, default 12
when the block has no spans. This is the claim-side scope for the upgrade
pass (the spec's reading), not what the code computes. -/
def blockAverageFontSize (pb : PageBlock) : ℚ :=
  let sizes := (blockSpans pb).map (fun s => s.size)
  if sizes.isEmpty then 12 else qDivNat (qSum sizes) sizes.length

/-- Extraction as claim C3 describes it: each span is compared against
1.2 times the average font size of the spans of its OWN structural
block. -/
def extractBlocksBlockScoped (doc : List (List PageBlock)) : List TextBlock :=
  doc.enum.flatMap fun p =>
    p.2.flatMap fun pb =>
      (blockSpans pb).filterMap (specExtractSpan p.1 (blockAverageFontSize pb))

/-- Extraction with the upgrade threshold scoped to the WHOLE page
dictionary: each span of a page is compared against 1.2 times the average
font size of all spans of that page (default 12 for a span-free page).
This is what the code actually does. -/
def extractBlocksPageScoped (doc : List (List PageBlock)) : List TextBlock :=
  doc.enum.flatMap fun p =>
    (pageSpans p.2).filterMap
      (specExtractSpan p.1 (calculateAverageFontSize p.2))

lemma fontSizeUpgrade_mkTextBlock (avg : ℚ) (text : String)
    (bbox : ℚ × ℚ × ℚ × ℚ) (pageNum : Nat) (size : ℚ) (fn : Option String) :
    fontSizeUpgrade avg (mkTextBlock text bbox pageNum size fn) =
      { text := text, bbox := bbox, pageNum := pageNum, fontSize := size,
        fontName := fn,
        isHeading := isHeadingText text ||
          decide (size > qMul avg (mkRat 6 5)) } := by
  unfold fontSizeUpgrade mkTextBlock
  by_cases h : size > qMul avg (mkRat 6 5) <;> simp [h]

lemma foldl_extract_spans (pageNum : Nat) (avg : ℚ) (spans : List Span) :
    ∀ acc : List TextBlock × String,
      (spans.foldl (extractSpanStep pageNum avg) acc).1 =
        acc.1 ++ spans.filterMap (specExtractSpan pageNum avg) := by
  induction spans with
  | nil => intro acc; simp
  | cons span rest ih =>
    intro acc
    rw [List.foldl_cons, ih]
    by_cases h : pyStrip span.text = ""
    · simp [extractSpanStep, specExtractSpan, h, List.filterMap_cons]
    · simp [extractSpanStep, specExtractSpan, h, List.filterMap_cons,
        fontSizeUpgrade_mkTextBlock]

lemma extractPageStep_blocks (pageNum : Nat) (pblocks : List PageBlock)
    (acc : List TextBlock × String) :
    (extractPageStep pageNum pblocks acc).1 =
      acc.1 ++ (pageSpans pblocks).filterMap
        (specExtractSpan pageNum (calculateAverageFontSize pblocks)) := by
  unfold extractPageStep
  exact foldl_extract_spans pageNum (calculateAverageFontSize pblocks)
    (pageSpans pblocks) acc

lemma foldl_extract_pages (pages : List (Nat × List PageBlock)) :
    ∀ acc : List TextBlock × String,
      (pages.foldl (fun acc p => extractPageStep p.1 p.2 acc) acc).1 =
        acc.1 ++ pages.flatMap (fun p =>
          (pageSpans p.2).filterMap
            (specExtractSpan p.1 (calculateAverageFontSize p.2))) := by
  induction pages with
  | nil => intro acc; simp
  | cons p rest ih =>
    intro acc
    simp only [List.foldl_cons, List.flatMap_cons, ih, extractPageStep_blocks,
      List.append_assoc]

/-- A one-page document exhibiting the scope of the font-size upgrade:
structural block 1 holds one span of size 20 whose text the text rules do
not classify as a heading; structural block 2 holds three spans of size
10. The page-wide average is 12.5 (threshold 15), the block-scoped
averages are 20 (threshold 24) and 10 (threshold 12). -/
def docC3 : List (List PageBlock) :=
  [[.withLines [⟨[⟨"a, b c d e f g h i j k l", (0, 0, 1, 1), 20, "F"⟩]⟩],
    .withLines [⟨[⟨"x", (0, 0, 1, 1), 10, "F"⟩,
                  ⟨"x", (0, 0, 1, 1), 10, "F"⟩,
                  ⟨"x", (0, 0, 1, 1), 10, "F"⟩]⟩]]]

/-- Claim C3, counterexample. The claim says the upgrade compares each
span's font size against 1.2 times the average font size of the spans of
the span's OWN structural block. On `docC3` the code marks the size-20
span as a heading (20 exceeds 1.2 times the page-wide average 12.5),
while the block-scoped reading would leave it non-heading (20 does not
exceed 1.2 times its block average 20); so the claim is false of the
code. -/
theorem extract_upgrade_not_block_scoped :
    ((extractTextBlocks docC3).1.map fun b => b.isHeading) =
        [true, true, true, true] ∧
      ((extractBlocksBlockScoped docC3).map fun b => b.isHeading) =
        [false, true, true, true] :=
  ⟨by decide, by decide⟩

/-- Claim C3, amended: for every document, the extraction pipeline
upgrades each span against 1.2 times the average font size of ALL spans
of the span's page dictionary (default 12 when the page has no spans),
and the extracted block's `is_heading` is exactly the text-rule value OR
that page-scoped font-size comparison. -/
theorem extractTextBlocks_page_scoped_upgrade (doc : List (List PageBlock)) :
    (extractTextBlocks doc).1 = extractBlocksPageScoped doc := by
  unfold extractTextBlocks extractBlocksPageScoped
  rw [foldl_extract_pages]
  simp

/-- Claim C9: `is_heading` is monotone over a block's lifetime. At
construction it is exactly the text-rule classification; the font-size
upgrade — the only operation that ever writes the field afterwards —
maps it to its old value OR the font-size comparison, so it can only
flip from false to true and is never reset to false. -/
theorem isHeading_monotone_lifecycle :
    (∀ (text : String) (bbox : ℚ × ℚ × ℚ × ℚ) (pageNum : Nat)
        (fontSize : ℚ) (fontName : Option String),
      (mkTextBlock text bbox pageNum fontSize fontName).isHeading =
        isHeadingText text) ∧
    (∀ (avg : ℚ) (tb : TextBlock),
      (fontSizeUpgrade avg tb).isHeading =
        (tb.isHeading || decide (tb.fontSize > qMul avg (mkRat 6 5)))) := by
  refine ⟨fun _ _ _ _ _ => rfl, fun avg tb => ?_⟩
  unfold fontSizeUpgrade
  by_cases h : tb.fontSize > qMul avg (mkRat 6 5) <;> simp [h]

/-- Claim C5, counterexample. The claim asserts that
`fuzzy("AI", "Artificial Intelligence is growing", None)` returns true
through the substring rule; it actually returns false. -/
theorem fuzzyMatch_ai_example_counterexample :
    fuzzyMatch "AI" "Artificial Intelligence is growing" none ≠ true := by
  decide

/-- Claim C5, amended: the lowercased target `"ai"` is NOT a substring of
the lowercased text (the letters `a` and `i` are never adjacent in
`"artificial intelligence is growing"`), so the substring rule does not
fire, and the predicate goes on to return false (the text is not
heading-like — its capitalized fraction is exactly one half, not more —
and the word overlap is 0, below the one-half threshold). -/
theorem fuzzyMatch_ai_example_false :
    isSubstr (pyLower "AI") (pyLower "Artificial Intelligence is growing") =
        false ∧
      fuzzyMatch "AI" "Artificial Intelligence is growing" none = false :=
  ⟨by decide, by decide⟩

/-- Claim C7: `_seems_ai_generated` returns true exactly when at least 2
of the eleven indicator phrases of `aiIndicators` occur as substrings of
the lowercased text, or the text has more than 10 whitespace-separated
words and at least 1 indicator occurs. (The code's early `false` for the
empty string is subsumed: an empty string has 0 indicators and 0 words.) -/
theorem seemsAiGenerated_indicator_rule (text : String) :
    seemsAiGenerated text =
      (decide (aiScore text ≥ 2) ||
        (decide ((pySplit text).length > 10) && decide (aiScore text ≥ 1))) := by
  unfold seemsAiGenerated
  by_cases h : text = ""
  · subst h; decide
  · simp [h]

/-- Claim C8: the fallback humanizer on
`"The system utilizes furthermore optimized methods"` rewrites
`utilizes` to `uses` and `furthermore` to `also` by literal substring
replacement and the leading `"The system"` to `"This system"`, giving
exactly `"This system uses also optimized methods"`. -/
theorem simpleHumanize_example :
    simpleHumanize "The system utilizes furthermore optimized methods" =
      "This system uses also optimized methods" := by
  decide

/-- Claim C1: the matcher is a staged fallback. The result always equals:
the exact/substring stage if it is nonempty; otherwise the context-fuzzy
stage (run only when a truthy context was supplied) if it is nonempty;
otherwise the word-overlap stage. In particular, when stage 1 yields at
least one block the results of stages 2 and 3 never appear in the
output. -/
theorem findMatchingTextBlocks_staged_fallback (targetText : String)
    (textBlocks : List TextBlock) (context : Option String) :
    findMatchingTextBlocks targetText textBlocks context =
      (let s1 := textBlocks.filter (fun b => stage1Pred targetText b)
       if s1.isEmpty then
         let s2 :=
           if ctxTruthy context then
             textBlocks.filter (fun b => fuzzyMatch targetText b.text context)
           else []
         if s2.isEmpty then
           textBlocks.filter (fun b => stage3Pred (pyLower targetText) b)
         else s2
       else s1) := by
  unfold findMatchingTextBlocks
  cases h1 : (textBlocks.filter (fun b => stage1Pred targetText b)).isEmpty
  · simp [h1]
  · cases hc : ctxTruthy context
    · simp [h1, hc]
    · simp [h1, hc]

/-- Claim C10: the matcher's output is a selection from its input — every
returned block is an input block, each input position is used at most
once, and the relative input order is preserved (each stage is a filter
of the input list). -/
theorem findMatchingTextBlocks_sublist (targetText : String)
    (textBlocks : List TextBlock) (context : Option String) :
    (findMatchingTextBlocks targetText textBlocks context).Sublist
      textBlocks := by
  unfold findMatchingTextBlocks
  cases h1 : ((textBlocks.filter (fun b => stage1Pred targetText b)).isEmpty
      && ctxTruthy context)
  · simp only [h1, if_false, Bool.false_eq_true]
    cases h2 : (textBlocks.filter (fun b => stage1Pred targetText b)).isEmpty
    · simp only [h2, Bool.false_eq_true, if_false]
      exact List.filter_sublist textBlocks
    · simp only [h2]
      exact List.filter_sublist textBlocks
  · simp only [h1, if_true]
    cases h2 : (textBlocks.filter
        (fun b => fuzzyMatch targetText b.text context)).isEmpty
    · simp only [h2, Bool.false_eq_true, if_false]
      exact List.filter_sublist textBlocks
    · simp only [h2]
      exact List.filter_sublist textBlocks

/-- Claim C2, counterexample. A whitespace-only target reaches stage 3
(its single space is not a substring of `"hello"`, and no context is
given), its lowercased split has zero words — and the word-overlap stage
then matches EVERY block rather than none, because the threshold test
degenerates to `0 ≥ 0`: the matcher returns the whole block list instead
of the empty result the claim demands. -/
theorem stage3_zero_word_target_counterexample :
    pySplit (pyLower " ") = [] ∧
    [mkTextBlock "hello" (0, 0, 0, 0) 0 12 none].filter
        (fun b => stage1Pred " " b) = [] ∧
    findMatchingTextBlocks " " [mkTextBlock "hello" (0, 0, 0, 0) 0 12 none]
        none = [mkTextBlock "hello" (0, 0, 0, 0) 0 12 none] :=
  ⟨by decide, by decide, by decide⟩

/-- Claim C2, amended: in the word-overlap stage, a target whose
lowercased split yields zero words matches EVERY block — the inclusion
test `overlap ≥ len(words) * 0.6` is `0 ≥ 0` for each block — so the
stage returns the full block list, not the empty result. -/
theorem stage3_zero_word_target_matches_all (targetLower : String)
    (blocks : List TextBlock) (h : pySplit targetLower = []) :
    blocks.filter (fun b => stage3Pred targetLower b) = blocks := by
  apply List.filter_eq_self.mpr
  intro b _
  unfold stage3Pred
  simp only [h]
  simp [setInterCard, qMul_eq]

/-- Witness for `stage3_zero_word_target_matches_all` at the whitespace
target `" "` and a one-block list. -/
theorem stage3_zero_word_target_matches_all_witness :
    pySplit " " = [] ∧
    [mkTextBlock "title" (0, 0, 0, 0) 0 12 none].filter
        (fun b => stage3Pred " " b) =
      [mkTextBlock "title" (0, 0, 0, 0) 0 12 none] :=
  ⟨by decide, stage3_zero_word_target_matches_all " "
    [mkTextBlock "title" (0, 0, 0, 0) 0 12 none] (by decide)⟩

/-- Claim C4: candidate resolution for a `modify_heading` request is
staged — the matcher runs over the `is_heading` blocks; if that is empty,
over the blocks passing the looser heading-like filter
(`looseHeadingPred`: word count < 15, font size at least 11, none of the
characters comma/semicolon/colon, capitalized-word fraction above 0.4);
if still empty, over the full block list; and when all three stages find
nothing the request yields no edits at all (the code logs and returns —
no exception, no document mutation). -/
theorem applyHeadingModification_staged (req : EditRequest)
    (textBlocks : List TextBlock) :
    (applyHeadingModification req textBlocks =
      (let t := pyStrip req.targetText
       let m1 := findMatchingTextBlocks t
         (textBlocks.filter (fun b => b.isHeading)) req.context
       if m1.isEmpty then
         let m2 := findMatchingTextBlocks t
           (textBlocks.filter looseHeadingPred) req.context
         if m2.isEmpty then findMatchingTextBlocks t textBlocks req.context
         else m2
       else m1)) ∧
    (findMatchingTextBlocks (pyStrip req.targetText)
        (textBlocks.filter (fun b => b.isHeading)) req.context = [] →
      findMatchingTextBlocks (pyStrip req.targetText)
        (textBlocks.filter looseHeadingPred) req.context = [] →
      findMatchingTextBlocks (pyStrip req.targetText) textBlocks req.context
          = [] →
      applyHeadingModification req textBlocks = []) := by
  constructor
  · unfold applyHeadingModification
    cases h1 : (findMatchingTextBlocks (pyStrip req.targetText)
        (textBlocks.filter (fun b => b.isHeading)) req.context).isEmpty
    · simp [h1]
    · simp [h1]
  · intro h1 h2 h3
    unfold applyHeadingModification
    simp [h1, h2, h3]

/-- Witness for `applyHeadingModification_staged`: a request whose target
matches nothing in any stage resolves to no edits. -/
theorem applyHeadingModification_staged_witness :
    applyHeadingModification
      { action := "modify_heading", targetText := "zzz qqq",
        replacementText := some "New Title", context := none }
      [mkTextBlock "a, b c d e f g h i j k l" (0, 0, 0, 0) 0 12 none] = [] :=
  (applyHeadingModification_staged _ _).2 (by decide) (by decide) (by decide)

/-- Claim C6: whenever the (abstracted) JSON decoding of the CLEANED
response fails — including after the fence-marker stripping performed by
`cleanResponse` — `_parse_edit_response` returns exactly the rule-based
parser applied to the ORIGINAL response text. (The user's prompt is not
even in scope of this function, so the fallback cannot consume it; this
differs from `parse_prompt`'s no-collaborator path, which rule-parses
the prompt.) -/
theorem parseEditResponse_fallback_on_response
    (jsonParse : String → Option (List JsonElem))
    (ruleBased : String → List EditRequest) (response : String)
    (h : jsonParse (cleanResponse response) = none) :
    parseEditResponse jsonParse ruleBased response = ruleBased response := by
  unfold parseEditResponse
  simp only []
  rw [h]

/-- Witness for `parseEditResponse_fallback_on_response`: a decoder that
always fails sends a fenced non-JSON response to the rule-based parser,
applied to the original (unstripped, still-fenced) response. -/
theorem parseEditResponse_fallback_on_response_witness :
    (fun _ : String => (none : Option (List JsonElem)))
        (cleanResponse "```json not json```") = none ∧
      parseEditResponse (fun _ => none)
        (fun s => [{ action := "replace", targetText := s }])
        "```json not json```" =
      [{ action := "replace", targetText := "```json not json```" }] :=
  ⟨rfl, parseEditResponse_fallback_on_response _ _ _ rfl⟩
